import Mathlib

/-!
Shallow embedding of the Safrochain faucet edge function
(`src/unnamed/part_000`): the HTTP handler `serve`, the quota count
helpers `getRequestCountByIp` / `getRequestCountByAddress`, the
sequence stabilizer `waitForSequenceStable`, the confirmation poller
`waitForSequenceUpdate`, the retry loop of `sendTokens`, and the
BigInt-aware JSON serializer `JSONStringifyWithBigInt`.

External network effects (Supabase queries, chain RPC reads, broadcast
results) are modelled as explicit inputs: a store response value for
each Supabase query, a stream `Nat → Nat` of account-sequence reads for
each polling loop (time is discretized into a poll-iteration fuel
budget), and an `Except` value for each fallible call.
-/

namespace Faucet

/-- One row of the `user_requests` audit table, as built by
`insertUserRequest` (src/unnamed/part_000:38-69), plus the
`request_timestamp` column the store stamps on insert. -/
structure AuditRecord where
  ip : String
  region : Option String
  userAgent : Option String
  receiverAddress : String
  success : Bool
  txHash : Option String
  timestamp : Nat
  deriving Repr, DecidableEq

/-- Outcome of one Supabase REST count query as seen by the caller:
the response was not OK, or the JSON body was not an array, or it was
an array of row ids. -/
inductive StoreResp where
  | notOk
  | okNonArray
  | okArray (rows : List Nat)
  deriving Repr, DecidableEq

/-- `getRequestCountByIp` (src/unnamed/part_000:72-86): returns 0 when
the response is not OK or the body is not an array, otherwise the
array length. The filtering itself (`ip_address=eq.<ip>`,
`success=eq.true`, `request_timestamp=gte.<since>`) happens in the
external store; see `countSuccessfulSince` for its model. -/
def getRequestCountByIp (resp : StoreResp) : Nat :=
  match resp with
  | .notOk => 0
  | .okNonArray => 0
  | .okArray rows => rows.length

/-- `getRequestCountByAddress` (src/unnamed/part_000:89-103): same
shape as `getRequestCountByIp`, keyed by receiver address. -/
def getRequestCountByAddress (resp : StoreResp) : Nat :=
  match resp with
  | .notOk => 0
  | .okNonArray => 0
  | .okArray rows => rows.length

/-- Whether a store response counts as a failed query: non-OK
response, or a body that is not an array. -/
def StoreResp.failed : StoreResp → Bool
  | .notOk => true
  | .okNonArray => true
  | .okArray _ => false

/-- Modelled from the spec: the windowed count query executed by the
external audit-log store (Supabase PostgREST). The repository only
builds the query URL `...&success=eq.true&request_timestamp=gte.<since>`
with the key filter; the store itself is not under src/. Per the
spec's QuotaWindow: count of AuditRecords with `success=true` and
matching key, where `timestamp >= now - 24h`. -/
def countSuccessfulSince (records : List AuditRecord)
    (key : AuditRecord → String) (value : String) (since : Nat) : Nat :=
  (records.filter
    (fun r => key r = value ∧ r.success = true ∧ since ≤ r.timestamp)).length

/-- The faucet config row used by the handler: address prefix and the
raw `requests_limit_per_day` column. -/
structure Config where
  prefixStr : String
  requests_limit_per_day : Nat
  deriving Repr, DecidableEq

/-- `config.requests_limit_per_day || 3` (src/unnamed/part_000:378):
JavaScript `||` replaces the falsy value 0 (also the model of an
absent column) with the default 3. -/
def effectiveLimit (cfg : Config) : Nat :=
  if cfg.requests_limit_per_day = 0 then 3 else cfg.requests_limit_per_day

/-- The result object produced by `sendTokens` on success
(src/unnamed/part_000:298-312), restricted to the fields the handler
reads back. -/
structure SendResult where
  success : Bool
  transactionHash : Option String
  deriving Repr, DecidableEq

/-- All external inputs consumed by one run of the `serve` handler
(src/unnamed/part_000:352-515): the extracted client IP (empty string
when no header yields one), the user agent, the parsed request body
(`.error` models `req.json()` throwing), the config fetch, the two
quota-count responses, the region lookup, and the result of
`sendTokens` (`.error` models it throwing). -/
structure ServeEnv where
  ip : String
  userAgent : Option String
  jsonBody : Except String String
  config : Except String Config
  ipResp : StoreResp
  addrResp : StoreResp
  region : Option String
  dispatch : Except String SendResult

/-- What one run of the handler produced: HTTP status, the
`rateLimitType` field of a 429 body, the audit rows appended via
`insertUserRequest`, and whether `sendTokens` was invoked. -/
structure ServeOutput where
  status : Nat
  rateLimitType : Option String
  audits : List AuditRecord
  dispatched : Bool
  deriving Repr, DecidableEq

/-- The catch block of the handler (src/unnamed/part_000:494-513): log
a failed attempt, respond 500. -/
def serveCatch (ip : String) (region : Option String)
    (userAgent : Option String) (receiver : String) (now : Nat) :
    ServeOutput :=
  { status := 500
    rateLimitType := none
    audits := [{ ip := ip, region := region, userAgent := userAgent,
                 receiverAddress := receiver, success := false,
                 txHash := none, timestamp := now }]
    dispatched := true }

/-- The failed-attempt row the handler logs on the quota-denial and
invalid-address paths (src/unnamed/part_000:401-408, 419-426, 437-444,
458-465): `region` and `transaction_hash` are null, `success` false. -/
def failedAudit (env : ServeEnv) (receiver : String) (now : Nat) :
    AuditRecord :=
  { ip := env.ip, region := none, userAgent := env.userAgent,
    receiverAddress := receiver, success := false,
    txHash := none, timestamp := now }

/-- The row logged after `sendTokens` returns
(src/unnamed/part_000:477-488): `tx_success = Boolean(result &&
result.success)` and `tx_hash = tx_success && result.transactionHash ?
String(result.transactionHash) : null`. -/
def dispatchAudit (env : ServeEnv) (receiver : String)
    (result : SendResult) (now : Nat) : AuditRecord :=
  { ip := env.ip, region := env.region, userAgent := env.userAgent,
    receiverAddress := receiver, success := result.success,
    txHash := if result.success then result.transactionHash else none,
    timestamp := now }

/-- The `serve` handler (src/unnamed/part_000:352-515) as a function
of its external inputs. Control flow in source order: parse body,
fetch config (either throwing lands in the catch block), reject an
undeterminable IP with 400 and no audit row, run the two quota checks
with the three 429 branches, validate the address prefix (400), then
dispatch; a throwing dispatch lands in the catch block with
`region`/`receiver_address` already assigned. `now` stamps the audit
rows. -/
def serveModel (env : ServeEnv) (now : Nat) : ServeOutput :=
  match env.jsonBody with
  | .error _ => { serveCatch env.ip none env.userAgent "" now with dispatched := false }
  | .ok receiver =>
    match env.config with
    | .error _ => { serveCatch env.ip none env.userAgent receiver now with dispatched := false }
    | .ok cfg =>
      let limit := effectiveLimit cfg
      if env.ip = "" then
        { status := 400, rateLimitType := none, audits := [], dispatched := false }
      else
        let ipCount := getRequestCountByIp env.ipResp
        let addrCount := getRequestCountByAddress env.addrResp
        if ipCount ≥ limit ∧ addrCount ≥ limit then
          { status := 429, rateLimitType := some "both",
            audits := [failedAudit env receiver now], dispatched := false }
        else if ipCount ≥ limit then
          { status := 429, rateLimitType := some "ip",
            audits := [failedAudit env receiver now], dispatched := false }
        else if addrCount ≥ limit then
          { status := 429, rateLimitType := some "address",
            audits := [failedAudit env receiver now], dispatched := false }
        else if receiver = "" ∨ ¬ cfg.prefixStr.toList.isPrefixOf receiver.toList then
          { status := 400, rateLimitType := none,
            audits := [failedAudit env receiver now], dispatched := false }
        else
          match env.dispatch with
          | .error _ => serveCatch env.ip env.region env.userAgent receiver now
          | .ok result =>
            { status := 200, rateLimitType := none,
              audits := [dispatchAudit env receiver result now],
              dispatched := true }

/-- The loop body of `waitForSequenceStable`
(src/unnamed/part_000:186-213), with wall-clock time discretized into
`fuel` remaining loop iterations and the chain reads given by the
stream `obs` (`obs k` is the k-th `getAccount` read, already collapsed
to `account ? account.sequence : 0`). State: read index `k`,
`lastSequence`, `stableCount`. When the new read equals `lastSequence`
the counter is bumped; at the threshold of 5 a confirmation read
`obs (k+1)` is taken after the 1s settle delay — a match is returned,
a mismatch becomes the new `lastSequence` with `stableCount = 1` and
the loop continues (`continue` skips the 800ms sleep). On fuel
exhaustion the last seen value is returned. -/
def stabLoop (obs : Nat → Nat) :
    Nat → Nat → Nat → Nat → Nat
  | 0, _, lastSeq, _ => lastSeq
  | fuel + 1, k, lastSeq, stableCount =>
    let cur := obs k
    if cur = lastSeq then
      if 5 ≤ stableCount + 1 then
        let fin := obs (k + 1)
        if fin ≠ cur then
          stabLoop obs fuel (k + 2) fin 1
        else
          fin
      else
        stabLoop obs fuel (k + 1) lastSeq (stableCount + 1)
    else
      stabLoop obs fuel (k + 1) cur 1

/-- `waitForSequenceStable` (src/unnamed/part_000:180-217): enters the
loop with `lastSequence = expectedSequence` and `stableCount = 0`. -/
def waitForSequenceStable (obs : Nat → Nat) (expectedSequence : Nat)
    (fuel : Nat) : Nat :=
  stabLoop obs fuel 0 expectedSequence 0

/-- The loop of `waitForSequenceUpdate` (src/unnamed/part_000:224-241):
poll until the read sequence is at least `previousSequence + 1` or the
fuel budget (wall-clock timeout) runs out; after a timeout one final
read is taken and returned. Never fails. -/
def updLoop (obs : Nat → Nat) (previousSequence : Nat) :
    Nat → Nat → Nat
  | 0, k => obs k
  | fuel + 1, k =>
    let cur := obs k
    if previousSequence + 1 ≤ cur then cur
    else updLoop obs previousSequence fuel (k + 1)

/-- `waitForSequenceUpdate` (src/unnamed/part_000:220-242), reads
starting at index 0 of its own observation stream. -/
def waitForSequenceUpdate (obs : Nat → Nat) (previousSequence : Nat)
    (fuel : Nat) : Nat :=
  updLoop obs previousSequence fuel 0

/-- External inputs of one attempt of the `sendTokens` retry loop
(src/unnamed/part_000:250-341): the stabilization read stream and its
fuel, the sequence read at the final pre-signing check
(src/unnamed/part_000:263-264), the broadcast result (`.error` models
`signAndBroadcast` rejecting), the post-broadcast confirmation read
stream and its fuel. -/
structure AttemptEnv where
  stabObs : Nat → Nat
  stabFuel : Nat
  finalCheckSeq : Nat
  broadcast : Except String SendResult
  updObs : Nat → Nat
  updFuel : Nat

/-- One attempt of the `sendTokens` try block
(src/unnamed/part_000:254-314): stabilize, re-check the sequence right
before signing (a mismatch throws, making the attempt fail without
broadcasting), broadcast, then run the advisory
`waitForSequenceUpdate` whose return value is discarded, and return
the processed result. -/
def attemptRun (env : AttemptEnv) : Except String SendResult :=
  let stableSequence := waitForSequenceStable env.stabObs 0 env.stabFuel
  if env.finalCheckSeq ≠ stableSequence then
    .error ("Sequence changed right before signing: expected " ++
      toString stableSequence ++ ", got " ++ toString env.finalCheckSeq ++
      ". Retrying...")
  else
    match env.broadcast with
    | .error e => .error e
    | .ok result =>
      let _ := waitForSequenceUpdate env.updObs env.finalCheckSeq env.updFuel
      .ok result

/-- Terminal outcome of `sendTokens`: the processed success result, or
the exception thrown after the retries are exhausted
(src/unnamed/part_000:342-344). -/
inductive SendOutcome where
  | success (result : SendResult)
  | failure (message : String)
  deriving Repr, DecidableEq

/-- The `while (retries > 0)` loop of `sendTokens`
(src/unnamed/part_000:250-344) over an abstract per-attempt result
`att` (`att i` is the outcome of the i-th attempt, 0-based). A
successful attempt returns immediately; a failed one stores the error
in `txError`, decrements `retries` and loops. When `retries` reaches 0
the loop exits and the handler throws
`Transaction failed after multiple retries: <last error>`. The second
component counts the attempts actually performed. -/
def sendLoop (att : Nat → Except String SendResult) :
    Nat → Nat → Option String → Nat → SendOutcome × Nat
  | _, 0, txError, attempts =>
    (.failure ("Transaction failed after multiple retries: " ++
       (txError.getD "undefined")), attempts)
  | i, retries + 1, _, attempts =>
    match att i with
    | .ok result => (.success result, attempts + 1)
    | .error e => sendLoop att (i + 1) retries (some e) (attempts + 1)

/-- `sendTokens`' retry loop entry: `retries = 5`, no error recorded
yet (src/unnamed/part_000:246-248). -/
def sendTokensRetry (att : Nat → Except String SendResult) :
    SendOutcome × Nat :=
  sendLoop att 0 5 none 0

mutual
/-- A JavaScript value as `JSON.stringify` traverses it: primitives,
BigInt, arrays and objects. -/
inductive JsVal where
  | nullv
  | boolv (b : Bool)
  | numv (n : Int)
  | strv (s : String)
  | bigintv (n : Int)
  | arrv (elems : JsArr)
  | objv (fields : JsObj)

/-- The element list of a JavaScript array. -/
inductive JsArr where
  | nil
  | cons (hd : JsVal) (tl : JsArr)

/-- The field list of a JavaScript object. -/
inductive JsObj where
  | nil
  | cons (key : String) (val : JsVal) (tl : JsObj)
end

mutual
/-- The effect of the replacer of `JSONStringifyWithBigInt`
(src/unnamed/part_000:34-35) over a whole value tree:
`JSON.stringify(obj, (_, value) => typeof value === "bigint" ?
value.toString() : value)` visits every value and replaces each BigInt
by its decimal string (`BigInt.prototype.toString`), leaving
everything else as is. -/
def bigIntReplace : JsVal → JsVal
  | .nullv => .nullv
  | .boolv b => .boolv b
  | .numv n => .numv n
  | .strv s => .strv s
  | .bigintv n => .strv (toString n)
  | .arrv elems => .arrv (bigIntReplaceArr elems)
  | .objv fields => .objv (bigIntReplaceObj fields)

/-- `bigIntReplace` mapped over array elements. -/
def bigIntReplaceArr : JsArr → JsArr
  | .nil => .nil
  | .cons hd tl => .cons (bigIntReplace hd) (bigIntReplaceArr tl)

/-- `bigIntReplace` mapped over object fields. -/
def bigIntReplaceObj : JsObj → JsObj
  | .nil => .nil
  | .cons key val tl => .cons key (bigIntReplace val) (bigIntReplaceObj tl)
end

mutual
/-- Whether a BigInt occurs anywhere in the value tree. A value
containing one would make plain `JSON.stringify` throw, and a
serializer that coerced it to a JS number could silently truncate it. -/
def hasBigInt : JsVal → Bool
  | .nullv => false
  | .boolv _ => false
  | .numv _ => false
  | .strv _ => false
  | .bigintv _ => true
  | .arrv elems => hasBigIntArr elems
  | .objv fields => hasBigIntObj fields

/-- `hasBigInt` over array elements. -/
def hasBigIntArr : JsArr → Bool
  | .nil => false
  | .cons hd tl => hasBigInt hd || hasBigIntArr tl

/-- `hasBigInt` over object fields. -/
def hasBigIntObj : JsObj → Bool
  | .nil => false
  | .cons _ val tl => hasBigInt val || hasBigIntObj tl
end

/-- The store response the external audit store would produce for a
windowed count query over a given record set: one id row per matching
record (the handler only reads the array length). -/
def queryResp (records : List AuditRecord) (key : AuditRecord → String)
    (value : String) (since : Nat) : StoreResp :=
  .okArray (List.replicate (countSuccessfulSince records key value since) 0)

mutual
/-- After the replacer pass of `JSONStringifyWithBigInt`, no BigInt
remains anywhere in the value tree. -/
def bigIntReplace_noBig : ∀ v : JsVal, hasBigInt (bigIntReplace v) = false
  | .nullv => rfl
  | .boolv _ => rfl
  | .numv _ => rfl
  | .strv _ => rfl
  | .bigintv _ => rfl
  | .arrv elems => by
      simpa [bigIntReplace, hasBigInt] using bigIntReplaceArr_noBig elems
  | .objv fields => by
      simpa [bigIntReplace, hasBigInt] using bigIntReplaceObj_noBig fields

/-- Array case of `bigIntReplace_noBig`. -/
def bigIntReplaceArr_noBig :
    ∀ a : JsArr, hasBigIntArr (bigIntReplaceArr a) = false
  | .nil => rfl
  | .cons hd tl => by
      simp [bigIntReplaceArr, hasBigIntArr, bigIntReplace_noBig hd,
        bigIntReplaceArr_noBig tl]

/-- Object case of `bigIntReplace_noBig`. -/
def bigIntReplaceObj_noBig :
    ∀ o : JsObj, hasBigIntObj (bigIntReplaceObj o) = false
  | .nil => rfl
  | .cons _ val tl => by
      simp [bigIntReplaceObj, hasBigIntObj, bigIntReplace_noBig val,
        bigIntReplaceObj_noBig tl]
end

/-! Concrete fixtures used by witness theorems. -/

/-- A config row with prefix `addr_safro` and a daily limit of 3. -/
def cfgW : Config := { prefixStr := "addr_safro", requests_limit_per_day := 3 }

/-- A successful dispatch result. -/
def resW : SendResult := { success := true, transactionHash := some "ABCD" }

/-- A request whose IP and address are both at the limit. -/
def envWBoth : ServeEnv :=
  { ip := "203.0.113.7", userAgent := none,
    jsonBody := .ok "addr_safro1xyz", config := .ok cfgW,
    ipResp := .okArray [1, 2, 3], addrResp := .okArray [4, 5, 6],
    region := none, dispatch := .ok resW }

/-- A request under both limits with a wrong-prefix address. -/
def envWBadAddr : ServeEnv :=
  { ip := "203.0.113.7", userAgent := none,
    jsonBody := .ok "cosmos1xyz", config := .ok cfgW,
    ipResp := .okArray [], addrResp := .okArray [],
    region := none, dispatch := .ok resW }

/-- A request whose IP could not be determined (no forwarding
headers): `ip` is the empty string. -/
def envWNoIp : ServeEnv :=
  { ip := "", userAgent := none,
    jsonBody := .ok "addr_safro1xyz", config := .ok cfgW,
    ipResp := .okArray [], addrResp := .okArray [],
    region := none, dispatch := .ok resW }

/-- A request whose two count queries both fail (non-OK store
responses). -/
def envWFail : ServeEnv :=
  { ip := "203.0.113.7", userAgent := none,
    jsonBody := .ok "addr_safro1xyz", config := .ok cfgW,
    ipResp := .notOk, addrResp := .okNonArray,
    region := none, dispatch := .ok resW }

/-- An observation stream that changes on every poll. -/
def obsWChanging : Nat → Nat := fun k => k + 10

/-- An observation stream whose confirmation read at index 1 differs
from the read at index 0 and is then constant. -/
def obsWFlip : Nat → Nat := fun k => if k = 0 then 7 else 8

/-- A record of a denied request: `success = false`. -/
def recWFail : AuditRecord :=
  { ip := "203.0.113.7", region := none, userAgent := none,
    receiverAddress := "addr_safro1xyz", success := false,
    txHash := none, timestamp := 50 }

/-- A record of a successful dispatch: `success = true`. -/
def recWOk : AuditRecord :=
  { ip := "203.0.113.7", region := none, userAgent := none,
    receiverAddress := "addr_safro1xyz", success := true,
    txHash := some "ABCD", timestamp := 60 }

/-- A per-attempt environment whose broadcast succeeds but whose
post-broadcast confirmation stream never reaches the target. -/
def attEnvW : AttemptEnv :=
  { stabObs := fun _ => 2, stabFuel := 6, finalCheckSeq := 2,
    broadcast := .ok resW, updObs := fun _ => 2, updFuel := 4 }

/-- An attempt function that raises a sequence-conflict error on every
broadcast. -/
def attWFail : Nat → Except String SendResult :=
  fun n => .error ("account sequence mismatch " ++ toString n)

/-- The error messages of `attWFail`. -/
def attWFailMsg : Nat → String :=
  fun n => "account sequence mismatch " ++ toString n

/-! Helper lemmas shared by the claim theorems. -/

/-- The effective daily limit is always positive: the JavaScript `||`
falls back to 3 on a falsy configured value. -/
theorem effectiveLimit_pos (cfg : Config) : 1 ≤ effectiveLimit cfg := by
  unfold effectiveLimit
  split <;> omega

/-- On a constant observation stream the stabilization loop always
returns the constant, from any loop state whose `lastSequence` is the
constant. -/
theorem stabLoop_const (obs : Nat → Nat) (v : Nat)
    (hconst : ∀ k, obs k = v) :
    ∀ fuel k sc, stabLoop obs fuel k v sc = v := by
  intro fuel
  induction fuel with
  | zero => intro k sc; rfl
  | succ n ih =>
    intro k sc
    simp only [stabLoop, hconst]
    split
    · split
      · simp
      · exact ih (k + 1) (sc + 1)
    · simp at *

/-- On a stream that changes at every poll the stabilization loop
never reaches the threshold: from a state whose `lastSequence` is the
previous read, it walks the stream and finally returns the last read
before fuel exhaustion. -/
theorem stabLoop_changing (obs : Nat → Nat)
    (hchang : ∀ k, obs (k + 1) ≠ obs k) :
    ∀ fuel k sc, stabLoop obs fuel (k + 1) (obs k) sc = obs (k + fuel) := by
  intro fuel
  induction fuel with
  | zero => intro k sc; rfl
  | succ n ih =>
    intro k sc
    simp only [stabLoop, hchang k, if_neg (hchang k)]
    have := ih (k + 1) 1
    simpa [Nat.add_assoc, Nat.add_comm, Nat.add_left_comm] using this

/-- A failed count query yields a zero count (IP query). -/
theorem getRequestCountByIp_failed (resp : StoreResp)
    (h : resp.failed = true) : getRequestCountByIp resp = 0 := by
  cases resp <;> simp_all [StoreResp.failed, getRequestCountByIp]

/-- A failed count query yields a zero count (address query). -/
theorem getRequestCountByAddress_failed (resp : StoreResp)
    (h : resp.failed = true) : getRequestCountByAddress resp = 0 := by
  cases resp <;> simp_all [StoreResp.failed, getRequestCountByAddress]

/-- Branch equation: a request body that fails to parse lands in the
catch block before dispatch. -/
theorem serveModel_body_err (env : ServeEnv) (now : Nat) (e : String)
    (hb : env.jsonBody = .error e) :
    serveModel env now =
      { serveCatch env.ip none env.userAgent "" now with dispatched := false } := by
  unfold serveModel
  rw [hb]

/-- Branch equation: a failing config fetch lands in the catch block
before dispatch. -/
theorem serveModel_cfg_err (env : ServeEnv) (now : Nat)
    (receiver e : String) (hb : env.jsonBody = .ok receiver)
    (hc : env.config = .error e) :
    serveModel env now =
      { serveCatch env.ip none env.userAgent receiver now with dispatched := false } := by
  unfold serveModel
  rw [hb, hc]

/-- Branch equation: an undeterminable IP is rejected with 400 and no
audit row is appended. -/
theorem serveModel_no_ip (env : ServeEnv) (now : Nat)
    (receiver : String) (cfg : Config) (hb : env.jsonBody = .ok receiver)
    (hc : env.config = .ok cfg) (hip : env.ip = "") :
    serveModel env now =
      { status := 400, rateLimitType := none, audits := [],
        dispatched := false } := by
  unfold serveModel
  rw [hb, hc]
  simp [hip]

/-- Branch equation: both counts at or above the limit. -/
theorem serveModel_deny_both (env : ServeEnv) (now : Nat)
    (receiver : String) (cfg : Config) (hb : env.jsonBody = .ok receiver)
    (hc : env.config = .ok cfg) (hip : env.ip ≠ "")
    (h1 : effectiveLimit cfg ≤ getRequestCountByIp env.ipResp)
    (h2 : effectiveLimit cfg ≤ getRequestCountByAddress env.addrResp) :
    serveModel env now =
      { status := 429, rateLimitType := some "both",
        audits := [failedAudit env receiver now], dispatched := false } := by
  simp only [serveModel, hb, hc]
  rw [if_neg hip, if_pos ⟨h1, h2⟩]

/-- Branch equation: only the IP count at or above the limit. -/
theorem serveModel_deny_ip (env : ServeEnv) (now : Nat)
    (receiver : String) (cfg : Config) (hb : env.jsonBody = .ok receiver)
    (hc : env.config = .ok cfg) (hip : env.ip ≠ "")
    (h1 : effectiveLimit cfg ≤ getRequestCountByIp env.ipResp)
    (h2 : getRequestCountByAddress env.addrResp < effectiveLimit cfg) :
    serveModel env now =
      { status := 429, rateLimitType := some "ip",
        audits := [failedAudit env receiver now], dispatched := false } := by
  simp only [serveModel, hb, hc]
  rw [if_neg hip, if_neg (by omega :
    ¬ (getRequestCountByIp env.ipResp ≥ effectiveLimit cfg ∧
       getRequestCountByAddress env.addrResp ≥ effectiveLimit cfg)),
    if_pos h1]

/-- Branch equation: only the address count at or above the limit. -/
theorem serveModel_deny_addr (env : ServeEnv) (now : Nat)
    (receiver : String) (cfg : Config) (hb : env.jsonBody = .ok receiver)
    (hc : env.config = .ok cfg) (hip : env.ip ≠ "")
    (h1 : getRequestCountByIp env.ipResp < effectiveLimit cfg)
    (h2 : effectiveLimit cfg ≤ getRequestCountByAddress env.addrResp) :
    serveModel env now =
      { status := 429, rateLimitType := some "address",
        audits := [failedAudit env receiver now], dispatched := false } := by
  simp only [serveModel, hb, hc]
  rw [if_neg hip, if_neg (by omega :
    ¬ (getRequestCountByIp env.ipResp ≥ effectiveLimit cfg ∧
       getRequestCountByAddress env.addrResp ≥ effectiveLimit cfg)),
    if_neg (by omega : ¬ getRequestCountByIp env.ipResp ≥ effectiveLimit cfg),
    if_pos h2]

/-- Branch equation: quota passed but the address is empty or lacks
the configured prefix — 400, one failed audit row, no dispatch. -/
theorem serveModel_invalid_addr (env : ServeEnv) (now : Nat)
    (receiver : String) (cfg : Config) (hb : env.jsonBody = .ok receiver)
    (hc : env.config = .ok cfg) (hip : env.ip ≠ "")
    (h1 : getRequestCountByIp env.ipResp < effectiveLimit cfg)
    (h2 : getRequestCountByAddress env.addrResp < effectiveLimit cfg)
    (hbad : receiver = "" ∨ ¬ cfg.prefixStr.toList.isPrefixOf receiver.toList) :
    serveModel env now =
      { status := 400, rateLimitType := none,
        audits := [failedAudit env receiver now], dispatched := false } := by
  simp only [serveModel, hb, hc]
  rw [if_neg hip, if_neg (by omega :
    ¬ (getRequestCountByIp env.ipResp ≥ effectiveLimit cfg ∧
       getRequestCountByAddress env.addrResp ≥ effectiveLimit cfg)),
    if_neg (by omega : ¬ getRequestCountByIp env.ipResp ≥ effectiveLimit cfg),
    if_neg (by omega : ¬ getRequestCountByAddress env.addrResp ≥ effectiveLimit cfg),
    if_pos hbad]

/-- Branch equation: quota passed, valid address, `sendTokens` throws —
the catch block logs one failed row and responds 500. -/
theorem serveModel_dispatch_err (env : ServeEnv) (now : Nat)
    (receiver : String) (cfg : Config) (e : String)
    (hb : env.jsonBody = .ok receiver) (hc : env.config = .ok cfg)
    (hip : env.ip ≠ "")
    (h1 : getRequestCountByIp env.ipResp < effectiveLimit cfg)
    (h2 : getRequestCountByAddress env.addrResp < effectiveLimit cfg)
    (hgood : ¬ (receiver = "" ∨ ¬ cfg.prefixStr.toList.isPrefixOf receiver.toList))
    (hd : env.dispatch = .error e) :
    serveModel env now = serveCatch env.ip env.region env.userAgent receiver now := by
  simp only [serveModel, hb, hc]
  rw [if_neg hip, if_neg (by omega :
    ¬ (getRequestCountByIp env.ipResp ≥ effectiveLimit cfg ∧
       getRequestCountByAddress env.addrResp ≥ effectiveLimit cfg)),
    if_neg (by omega : ¬ getRequestCountByIp env.ipResp ≥ effectiveLimit cfg),
    if_neg (by omega : ¬ getRequestCountByAddress env.addrResp ≥ effectiveLimit cfg),
    if_neg hgood, hd]

/-- Branch equation: quota passed, valid address, `sendTokens`
returns — 200 with one audit row recording the dispatch outcome. -/
theorem serveModel_dispatch_ok (env : ServeEnv) (now : Nat)
    (receiver : String) (cfg : Config) (result : SendResult)
    (hb : env.jsonBody = .ok receiver) (hc : env.config = .ok cfg)
    (hip : env.ip ≠ "")
    (h1 : getRequestCountByIp env.ipResp < effectiveLimit cfg)
    (h2 : getRequestCountByAddress env.addrResp < effectiveLimit cfg)
    (hgood : ¬ (receiver = "" ∨ ¬ cfg.prefixStr.toList.isPrefixOf receiver.toList))
    (hd : env.dispatch = .ok result) :
    serveModel env now =
      { status := 200, rateLimitType := none,
        audits := [dispatchAudit env receiver result now],
        dispatched := true } := by
  simp only [serveModel, hb, hc]
  rw [if_neg hip, if_neg (by omega :
    ¬ (getRequestCountByIp env.ipResp ≥ effectiveLimit cfg ∧
       getRequestCountByAddress env.addrResp ≥ effectiveLimit cfg)),
    if_neg (by omega : ¬ getRequestCountByIp env.ipResp ≥ effectiveLimit cfg),
    if_neg (by omega : ¬ getRequestCountByAddress env.addrResp ≥ effectiveLimit cfg),
    if_neg hgood, hd]

/-- On the quota-allowed main path the response is never a 429 and
carries no `rateLimitType`, whatever the address validity and dispatch
outcome. -/
theorem serveModel_allowed (env : ServeEnv) (now : Nat)
    (receiver : String) (cfg : Config) (hb : env.jsonBody = .ok receiver)
    (hc : env.config = .ok cfg) (hip : env.ip ≠ "")
    (h1 : getRequestCountByIp env.ipResp < effectiveLimit cfg)
    (h2 : getRequestCountByAddress env.addrResp < effectiveLimit cfg) :
    (serveModel env now).rateLimitType = none ∧
    (serveModel env now).status ≠ 429 := by
  by_cases hbad : receiver = "" ∨ ¬ cfg.prefixStr.toList.isPrefixOf receiver.toList
  · rw [serveModel_invalid_addr env now receiver cfg hb hc hip h1 h2 hbad]
    exact ⟨rfl, by simp⟩
  · cases hd : env.dispatch with
    | error e =>
      rw [serveModel_dispatch_err env now receiver cfg e hb hc hip h1 h2 hbad hd]
      exact ⟨rfl, by simp [serveCatch]⟩
    | ok result =>
      rw [serveModel_dispatch_ok env now receiver cfg result hb hc hip h1 h2 hbad hd]
      exact ⟨rfl, by simp⟩

/-- After a timeout-bound number of polls that never reach the target
sequence, `waitForSequenceUpdate`'s loop performs its final read and
returns it. -/
theorem updLoop_timeout (obs : Nat → Nat) (prev : Nat)
    (h : ∀ k, obs k < prev + 1) :
    ∀ fuel k, updLoop obs prev fuel k = obs (k + fuel) := by
  intro fuel
  induction fuel with
  | zero => intro k; rfl
  | succ n ih =>
    intro k
    simp only [updLoop, if_neg (Nat.not_le.mpr (h k))]
    have := ih (k + 1)
    simpa [Nat.add_assoc, Nat.add_comm, Nat.add_left_comm] using this

/-- One unfolding step of the stabilization loop, with the `let`
bindings of the source substituted. -/
theorem stabLoop_succ (obs : Nat → Nat) (fuel k lastSeq sc : Nat) :
    stabLoop obs (fuel + 1) k lastSeq sc =
      if obs k = lastSeq then
        if 5 ≤ sc + 1 then
          if obs (k + 1) ≠ obs k then stabLoop obs fuel (k + 2) (obs (k + 1)) 1
          else obs (k + 1)
        else stabLoop obs fuel (k + 1) lastSeq (sc + 1)
      else stabLoop obs fuel (k + 1) (obs k) 1 := rfl

/-- C3: On a stream that holds a constant value `v`, with a fuel
budget of at least 5 loop iterations, `waitForSequenceStable` returns
`v` (the constancy covers the confirmation read as well); on a stream
that changes at every poll, it runs until the time budget is exhausted
and returns the last observed value — it never fails, it returns. -/
theorem stabilize_constant_or_changing
    (obs1 obs2 : Nat → Nat) (v expected1 expected2 fuel1 fuel2 : Nat)
    (hconst : ∀ k, obs1 k = v) (hfuel1 : 5 ≤ fuel1)
    (hchang : ∀ k, obs2 (k + 1) ≠ obs2 k) (hfuel2 : 1 ≤ fuel2) :
    waitForSequenceStable obs1 expected1 fuel1 = v ∧
    waitForSequenceStable obs2 expected2 fuel2 = obs2 (fuel2 - 1) := by
  constructor
  · obtain ⟨m, rfl⟩ : ∃ m, fuel1 = m + 1 := ⟨fuel1 - 1, by omega⟩
    unfold waitForSequenceStable
    rw [stabLoop_succ]
    by_cases hE : obs1 0 = expected1
    · rw [if_pos hE, if_neg (by omega : ¬ 5 ≤ 0 + 1)]
      have hEv : expected1 = v := by rw [← hE, hconst 0]
      rw [hEv]
      exact stabLoop_const obs1 v hconst m (0 + 1) (0 + 1)
    · rw [if_neg hE, hconst 0]
      exact stabLoop_const obs1 v hconst m (0 + 1) 1
  · obtain ⟨m, rfl⟩ : ∃ m, fuel2 = m + 1 := ⟨fuel2 - 1, by omega⟩
    unfold waitForSequenceStable
    have hcont : stabLoop obs2 m (0 + 1) (obs2 0) 1 = obs2 (0 + m) :=
      stabLoop_changing obs2 hchang m 0 1
    rw [stabLoop_succ]
    by_cases hE : obs2 0 = expected2
    · rw [if_pos hE, if_neg (by omega : ¬ 5 ≤ 0 + 1), ← hE]
      simpa using hcont
    · rw [if_neg hE]
      simpa using hcont

/-- C4: When the stability counter reaches the threshold of 5 equal
observations (`stableCount` at 4 is bumped to 5 by a matching read),
the loop takes one confirmation read. If it differs, the loop does not
return: it continues with `lastSequence` reset to the differing read
and `stableCount` reset to 1. If it matches, that value is returned. -/
theorem confirmation_read_restarts_or_returns
    (obs : Nat → Nat) (fuel k lastSeq stableCount : Nat)
    (hcur : obs k = lastSeq) (hthr : 4 ≤ stableCount) :
    (obs (k + 1) ≠ obs k →
      stabLoop obs (fuel + 1) k lastSeq stableCount =
        stabLoop obs fuel (k + 2) (obs (k + 1)) 1) ∧
    (obs (k + 1) = obs k →
      stabLoop obs (fuel + 1) k lastSeq stableCount = obs (k + 1)) := by
  constructor
  · intro hne
    rw [stabLoop_succ, if_pos hcur, if_pos (by omega : 5 ≤ stableCount + 1),
      if_pos hne]
  · intro heq
    rw [stabLoop_succ, if_pos hcur, if_pos (by omega : 5 ≤ stableCount + 1),
      if_neg (not_not_intro heq)]

/-- C5: Against a gateway whose broadcast raises on every attempt, the
retry loop performs exactly 5 attempts, returns the terminal failure
message built from the last observed error, and never returns a
success outcome. -/
theorem retry_exhaustion_terminal_failure
    (att : Nat → Except String SendResult) (e : Nat → String)
    (hatt : ∀ n, att n = .error (e n)) :
    sendTokensRetry att =
      (.failure ("Transaction failed after multiple retries: " ++ e 4), 5) ∧
    ∀ r, (sendTokensRetry att).1 ≠ .success r := by
  have hrun : sendTokensRetry att =
      (.failure ("Transaction failed after multiple retries: " ++ e 4), 5) := by
    simp [sendTokensRetry, sendLoop, hatt 0, hatt 1, hatt 2, hatt 3, hatt 4]
  refine ⟨hrun, ?_⟩
  intro r
  rw [hrun]
  simp

/-- C7: When the pre-signing check matches the stabilized sequence and
the broadcast succeeds, the attempt returns the success result even
though the post-broadcast confirmation stream never reaches
`finalCheckSeq + 1`: the poller merely times out, takes a final read,
and its (discarded) value is the last read; the dispatcher's loop then
reports `Success` after this single attempt. -/
theorem broadcast_success_survives_confirmation_timeout
    (env : AttemptEnv) (result : SendResult)
    (hseq : env.finalCheckSeq = waitForSequenceStable env.stabObs 0 env.stabFuel)
    (hbc : env.broadcast = .ok result)
    (htimeout : ∀ k, env.updObs k < env.finalCheckSeq + 1) :
    attemptRun env = .ok result ∧
    waitForSequenceUpdate env.updObs env.finalCheckSeq env.updFuel =
      env.updObs env.updFuel ∧
    ∀ att : Nat → Except String SendResult, att 0 = attemptRun env →
      sendTokensRetry att = (.success result, 1) := by
  have hrun : attemptRun env = .ok result := by
    unfold attemptRun
    rw [if_neg (by simpa using hseq), hbc]
  refine ⟨hrun, ?_, ?_⟩
  · have := updLoop_timeout env.updObs env.finalCheckSeq htimeout env.updFuel 0
    simpa [waitForSequenceUpdate] using this
  · intro att hatt
    simp [sendTokensRetry, sendLoop, hatt, hrun]

/-- The handler's output depends on the two store responses only
through the counts it extracts from them: two runs whose inputs agree
everywhere else and whose count queries return equal counts produce
identical outputs. -/
theorem serveModel_resp_congr (env₁ env₂ : ServeEnv) (now : Nat)
    (hip : env₁.ip = env₂.ip) (hua : env₁.userAgent = env₂.userAgent)
    (hb : env₁.jsonBody = env₂.jsonBody) (hc : env₁.config = env₂.config)
    (hr : env₁.region = env₂.region) (hd : env₁.dispatch = env₂.dispatch)
    (h1 : getRequestCountByIp env₁.ipResp = getRequestCountByIp env₂.ipResp)
    (h2 : getRequestCountByAddress env₁.addrResp =
      getRequestCountByAddress env₂.addrResp) :
    serveModel env₁ now = serveModel env₂ now := by
  cases hb2 : env₂.jsonBody with
  | error e =>
    rw [serveModel_body_err env₁ now e (hb.trans hb2),
      serveModel_body_err env₂ now e hb2, hip, hua]
  | ok receiver =>
    cases hc2 : env₂.config with
    | error e =>
      rw [serveModel_cfg_err env₁ now receiver e (hb.trans hb2) (hc.trans hc2),
        serveModel_cfg_err env₂ now receiver e hb2 hc2, hip, hua]
    | ok cfg =>
      by_cases hip2 : env₂.ip = ""
      · rw [serveModel_no_ip env₁ now receiver cfg (hb.trans hb2)
          (hc.trans hc2) (hip.trans hip2),
          serveModel_no_ip env₂ now receiver cfg hb2 hc2 hip2]
      · have hip1 : env₁.ip ≠ "" := by rw [hip]; exact hip2
        by_cases q1 : effectiveLimit cfg ≤ getRequestCountByIp env₂.ipResp
        · by_cases q2 : effectiveLimit cfg ≤ getRequestCountByAddress env₂.addrResp
          · rw [serveModel_deny_both env₁ now receiver cfg (hb.trans hb2)
              (hc.trans hc2) hip1 (by omega) (by omega),
              serveModel_deny_both env₂ now receiver cfg hb2 hc2 hip2 q1 q2]
            simp [failedAudit, hip, hua]
          · rw [serveModel_deny_ip env₁ now receiver cfg (hb.trans hb2)
              (hc.trans hc2) hip1 (by omega) (by omega),
              serveModel_deny_ip env₂ now receiver cfg hb2 hc2 hip2 q1 (by omega)]
            simp [failedAudit, hip, hua]
        · by_cases q2 : effectiveLimit cfg ≤ getRequestCountByAddress env₂.addrResp
          · rw [serveModel_deny_addr env₁ now receiver cfg (hb.trans hb2)
              (hc.trans hc2) hip1 (by omega) (by omega),
              serveModel_deny_addr env₂ now receiver cfg hb2 hc2 hip2 (by omega) q2]
            simp [failedAudit, hip, hua]
          · by_cases hbad : receiver = "" ∨ ¬ cfg.prefixStr.toList.isPrefixOf receiver.toList
            · rw [serveModel_invalid_addr env₁ now receiver cfg (hb.trans hb2)
                (hc.trans hc2) hip1 (by omega) (by omega) hbad,
                serveModel_invalid_addr env₂ now receiver cfg hb2 hc2 hip2
                  (by omega) (by omega) hbad]
              simp [failedAudit, hip, hua]
            · cases hd2 : env₂.dispatch with
              | error e =>
                rw [serveModel_dispatch_err env₁ now receiver cfg e (hb.trans hb2)
                  (hc.trans hc2) hip1 (by omega) (by omega) hbad (hd.trans hd2),
                  serveModel_dispatch_err env₂ now receiver cfg e hb2 hc2 hip2
                    (by omega) (by omega) hbad hd2, hip, hua, hr]
              | ok result =>
                rw [serveModel_dispatch_ok env₁ now receiver cfg result (hb.trans hb2)
                  (hc.trans hc2) hip1 (by omega) (by omega) hbad (hd.trans hd2),
                  serveModel_dispatch_ok env₂ now receiver cfg result hb2 hc2 hip2
                    (by omega) (by omega) hbad hd2]
                simp [dispatchAudit, hip, hua, hr]

/-- C1: the quota decision table of the handler, checked in order with
first match winning and an inclusive boundary: both counts at or above
the limit give 429 with `rateLimitType` "both"; only the IP count, 429
with "ip"; only the address count, 429 with "address"; otherwise the
request passes the quota gate (no 429 and no `rateLimitType`). -/
theorem quota_decision_table (env : ServeEnv) (now : Nat)
    (receiver : String) (cfg : Config)
    (hb : env.jsonBody = .ok receiver) (hc : env.config = .ok cfg)
    (hip : env.ip ≠ "") :
    (effectiveLimit cfg ≤ getRequestCountByIp env.ipResp →
     effectiveLimit cfg ≤ getRequestCountByAddress env.addrResp →
     (serveModel env now).status = 429 ∧
       (serveModel env now).rateLimitType = some "both") ∧
    (effectiveLimit cfg ≤ getRequestCountByIp env.ipResp →
     getRequestCountByAddress env.addrResp < effectiveLimit cfg →
     (serveModel env now).status = 429 ∧
       (serveModel env now).rateLimitType = some "ip") ∧
    (getRequestCountByIp env.ipResp < effectiveLimit cfg →
     effectiveLimit cfg ≤ getRequestCountByAddress env.addrResp →
     (serveModel env now).status = 429 ∧
       (serveModel env now).rateLimitType = some "address") ∧
    (getRequestCountByIp env.ipResp < effectiveLimit cfg →
     getRequestCountByAddress env.addrResp < effectiveLimit cfg →
     (serveModel env now).status ≠ 429 ∧
       (serveModel env now).rateLimitType = none) := by
  refine ⟨fun h1 h2 => ?_, fun h1 h2 => ?_, fun h1 h2 => ?_, fun h1 h2 => ?_⟩
  · rw [serveModel_deny_both env now receiver cfg hb hc hip h1 h2]
    exact ⟨rfl, rfl⟩
  · rw [serveModel_deny_ip env now receiver cfg hb hc hip h1 h2]
    exact ⟨rfl, rfl⟩
  · rw [serveModel_deny_addr env now receiver cfg hb hc hip h1 h2]
    exact ⟨rfl, rfl⟩
  · have h := serveModel_allowed env now receiver cfg hb hc hip h1 h2
    exact ⟨h.2, h.1⟩

/-- C1 witness: a request whose IP and address counts are both exactly
at the limit of 3 is denied with 429 and `rateLimitType` "both". -/
theorem quota_decision_table_witness :
    (serveModel envWBoth 100).status = 429 ∧
      (serveModel envWBoth 100).rateLimitType = some "both" :=
  (quota_decision_table envWBoth 100 "addr_safro1xyz" cfgW rfl rfl
    (by decide)).1 (by decide) (by decide)

/-- C2 counterexample: a request whose IP cannot be determined (no
forwarding headers) is answered 400 with zero AuditRecords appended,
so not every inbound request appends exactly one record. -/
theorem serve_no_audit_on_missing_ip :
    (serveModel envWNoIp 0).audits = [] ∧
      (serveModel envWNoIp 0).status = 400 := by
  rw [serveModel_no_ip envWNoIp 0 "addr_safro1xyz" cfgW rfl rfl rfl]
  exact ⟨rfl, rfl⟩

/-- C2 (amended): for every inbound request whose IP is determinable,
exactly one AuditRecord is appended, on every exit path — quota
denial, address-validation failure, dispatch success, dispatch
failure, and unexpected error (body parse or config fetch throwing);
when the IP cannot be determined, the 400 rejection appends none. -/
theorem audit_exactly_once_when_ip_known (env : ServeEnv) (now : Nat) :
    (env.ip ≠ "" → (serveModel env now).audits.length = 1) ∧
    (∀ receiver cfg, env.jsonBody = .ok receiver → env.config = .ok cfg →
      env.ip = "" → (serveModel env now).audits = []) := by
  constructor
  · intro hip
    cases hb : env.jsonBody with
    | error e => rw [serveModel_body_err env now e hb]; rfl
    | ok receiver =>
      cases hc : env.config with
      | error e => rw [serveModel_cfg_err env now receiver e hb hc]; rfl
      | ok cfg =>
        by_cases h1 : effectiveLimit cfg ≤ getRequestCountByIp env.ipResp
        · by_cases h2 : effectiveLimit cfg ≤ getRequestCountByAddress env.addrResp
          · rw [serveModel_deny_both env now receiver cfg hb hc hip h1 h2]; rfl
          · rw [serveModel_deny_ip env now receiver cfg hb hc hip h1 (by omega)]
            rfl
        · by_cases h2 : effectiveLimit cfg ≤ getRequestCountByAddress env.addrResp
          · rw [serveModel_deny_addr env now receiver cfg hb hc hip (by omega) h2]
            rfl
          · by_cases hbad : receiver = "" ∨ ¬ cfg.prefixStr.toList.isPrefixOf receiver.toList
            · rw [serveModel_invalid_addr env now receiver cfg hb hc hip
                (by omega) (by omega) hbad]
              rfl
            · cases hd : env.dispatch with
              | error e =>
                rw [serveModel_dispatch_err env now receiver cfg e hb hc hip
                  (by omega) (by omega) hbad hd]
                rfl
              | ok result =>
                rw [serveModel_dispatch_ok env now receiver cfg result hb hc hip
                  (by omega) (by omega) hbad hd]
                rfl
  · intro receiver cfg hb hc hip
    rw [serveModel_no_ip env now receiver cfg hb hc hip]

/-- C2 witness: a concrete denied request appends exactly one record. -/
theorem audit_exactly_once_when_ip_known_witness :
    (serveModel envWBoth 100).audits.length = 1 :=
  (audit_exactly_once_when_ip_known envWBoth 100).1 (by decide)

/-- C6: a request that passes the quota gate but whose recipient
address is empty or does not start with the configured prefix is
answered 400 and the dispatcher (hence any chain interaction,
including the broadcast) is never reached. -/
theorem invalid_address_no_dispatch (env : ServeEnv) (now : Nat)
    (receiver : String) (cfg : Config)
    (hb : env.jsonBody = .ok receiver) (hc : env.config = .ok cfg)
    (hip : env.ip ≠ "")
    (h1 : getRequestCountByIp env.ipResp < effectiveLimit cfg)
    (h2 : getRequestCountByAddress env.addrResp < effectiveLimit cfg)
    (hbad : receiver = "" ∨ ¬ cfg.prefixStr.toList.isPrefixOf receiver.toList) :
    (serveModel env now).status = 400 ∧
      (serveModel env now).dispatched = false := by
  rw [serveModel_invalid_addr env now receiver cfg hb hc hip h1 h2 hbad]
  exact ⟨rfl, rfl⟩

/-- C6 witness: a wrong-prefix address under both limits is rejected
with 400 and no dispatch. -/
theorem invalid_address_no_dispatch_witness :
    (serveModel envWBadAddr 100).status = 400 ∧
      (serveModel envWBadAddr 100).dispatched = false :=
  invalid_address_no_dispatch envWBadAddr 100 "cosmos1xyz" cfgW rfl rfl
    (by decide) (by decide) (by decide) (Or.inr (by decide))

/-- C10: a failed count query (non-OK store response or a non-array
body) is treated as a count of 0, so the quota check fails open: a
request whose IP (resp. address) true windowed count is at or over
the limit still passes the quota gate whenever the corresponding
query fails and the other check passes, and passes unconditionally
when both queries fail. -/
theorem count_query_failure_fails_open (env : ServeEnv) (now : Nat)
    (receiver : String) (cfg : Config)
    (records : List AuditRecord) (since : Nat)
    (hb : env.jsonBody = .ok receiver) (hc : env.config = .ok cfg)
    (hip : env.ip ≠ "") :
    (env.ipResp.failed = true → getRequestCountByIp env.ipResp = 0) ∧
    (env.addrResp.failed = true → getRequestCountByAddress env.addrResp = 0) ∧
    (env.ipResp.failed = true →
      effectiveLimit cfg ≤
        countSuccessfulSince records (fun a => a.ip) env.ip since →
      getRequestCountByAddress env.addrResp < effectiveLimit cfg →
      (serveModel env now).rateLimitType = none ∧
        (serveModel env now).status ≠ 429) ∧
    (env.addrResp.failed = true →
      effectiveLimit cfg ≤
        countSuccessfulSince records (fun a => a.receiverAddress) receiver since →
      getRequestCountByIp env.ipResp < effectiveLimit cfg →
      (serveModel env now).rateLimitType = none ∧
        (serveModel env now).status ≠ 429) ∧
    (env.ipResp.failed = true → env.addrResp.failed = true →
      (serveModel env now).rateLimitType = none ∧
        (serveModel env now).status ≠ 429) := by
  have hpos := effectiveLimit_pos cfg
  refine ⟨getRequestCountByIp_failed _, getRequestCountByAddress_failed _,
    ?_, ?_, ?_⟩
  · intro hf _ h2
    have hz := getRequestCountByIp_failed _ hf
    exact serveModel_allowed env now receiver cfg hb hc hip (by omega) h2
  · intro hf _ h1
    have hz := getRequestCountByAddress_failed _ hf
    exact serveModel_allowed env now receiver cfg hb hc hip h1 (by omega)
  · intro hf1 hf2
    have hz1 := getRequestCountByIp_failed _ hf1
    have hz2 := getRequestCountByAddress_failed _ hf2
    exact serveModel_allowed env now receiver cfg hb hc hip (by omega) (by omega)

/-- C10 witness: with three prior successful records for the IP
(true count 3 = limit) but a failing IP count query and a failing
address count query, the request passes the quota gate. -/
theorem count_query_failure_fails_open_witness :
    (serveModel envWFail 100).rateLimitType = none ∧
      (serveModel envWFail 100).status ≠ 429 :=
  (count_query_failure_fails_open envWFail 100 "addr_safro1xyz" cfgW
    [recWOk, recWOk, recWOk] 0 rfl rfl (by decide)).2.2.1
    (by decide) (by decide) (by decide)

/-- C8: the windowed quota counts only see AuditRecords with
`success = true` inside the window (every record the filter keeps has
`success = true` and an in-window timestamp), and appending a
`success = false` record — as written for denied, invalid, or failed
requests — changes neither the IP count nor the address count, hence
leaves every future handler decision unchanged. -/
theorem failed_records_never_affect_quota
    (records : List AuditRecord) (r : AuditRecord)
    (hfail : r.success = false) (value : String) (since : Nat) :
    (∀ rec ∈ records.filter
        (fun a => a.ip = value ∧ a.success = true ∧ since ≤ a.timestamp),
      rec.success = true ∧ since ≤ rec.timestamp) ∧
    countSuccessfulSince (records ++ [r]) (fun a => a.ip) value since =
      countSuccessfulSince records (fun a => a.ip) value since ∧
    countSuccessfulSince (records ++ [r]) (fun a => a.receiverAddress) value since =
      countSuccessfulSince records (fun a => a.receiverAddress) value since ∧
    ∀ env : ServeEnv, ∀ now : Nat,
      serveModel { env with
          ipResp := queryResp (records ++ [r]) (fun a => a.ip) env.ip since,
          addrResp := queryResp (records ++ [r]) (fun a => a.receiverAddress) value since } now =
      serveModel { env with
          ipResp := queryResp records (fun a => a.ip) env.ip since,
          addrResp := queryResp records (fun a => a.receiverAddress) value since } now := by
  have hcip : countSuccessfulSince (records ++ [r]) (fun a => a.ip) value since =
      countSuccessfulSince records (fun a => a.ip) value since := by
    simp [countSuccessfulSince, List.filter_append, hfail]
  have hcaddr : countSuccessfulSince (records ++ [r])
      (fun a => a.receiverAddress) value since =
      countSuccessfulSince records (fun a => a.receiverAddress) value since := by
    simp [countSuccessfulSince, List.filter_append, hfail]
  have hcip2 : ∀ v, countSuccessfulSince (records ++ [r]) (fun a => a.ip) v since =
      countSuccessfulSince records (fun a => a.ip) v since := by
    intro v
    simp [countSuccessfulSince, List.filter_append, hfail]
  refine ⟨?_, hcip, hcaddr, ?_⟩
  · intro rec hrec
    rw [List.mem_filter] at hrec
    have h := hrec.2
    simp only [decide_eq_true_eq] at h
    exact ⟨h.2.1, h.2.2⟩
  · intro env now
    exact serveModel_resp_congr _ _ now rfl rfl rfl rfl rfl rfl
      (by simp [queryResp, getRequestCountByIp, hcip2])
      (by simp [queryResp, getRequestCountByAddress, hcaddr])

/-- C8 witness: appending the record of a denied request leaves the
IP count over one prior successful record unchanged. -/
theorem failed_records_never_affect_quota_witness :
    countSuccessfulSince [recWOk, recWFail] (fun a => a.ip)
        "203.0.113.7" 0 =
      countSuccessfulSince [recWOk] (fun a => a.ip) "203.0.113.7" 0 :=
  (failed_records_never_affect_quota [recWOk] recWFail (by decide)
    "203.0.113.7" 0).2.1

/-- C9: the BigInt-aware serializer converts every BigInt anywhere in
the response value tree to its decimal string before serialization:
after the replacer pass no BigInt remains at any depth, so no field is
silently truncated. -/
theorem response_serialization_no_bigint :
    (∀ v : JsVal, hasBigInt (bigIntReplace v) = false) ∧
    (∀ a : JsArr, hasBigIntArr (bigIntReplaceArr a) = false) ∧
    (∀ o : JsObj, hasBigIntObj (bigIntReplaceObj o) = false) :=
  ⟨bigIntReplace_noBig, bigIntReplaceArr_noBig, bigIntReplaceObj_noBig⟩

/-- C3 witness: a stream constant at 4 stabilizes to 4 within a fuel
budget of 6, and a stream that changes on every poll (k ↦ k + 10)
makes the stabilizer time out and return the last observed value. -/
theorem stabilize_constant_or_changing_witness :
    waitForSequenceStable (fun _ => 4) 0 6 = 4 ∧
      waitForSequenceStable obsWChanging 0 6 = obsWChanging 5 :=
  stabilize_constant_or_changing (fun _ => 4) obsWChanging 4 0 0 6 6
    (fun _ => rfl) (by decide)
    (fun k => by simp [obsWChanging]) (by decide)

/-- C4 witness: at the threshold, a differing confirmation read makes
the loop continue with the new value and counter 1; a matching one is
returned. -/
theorem confirmation_read_restarts_or_returns_witness :
    (stabLoop obsWFlip 4 0 7 4 = stabLoop obsWFlip 3 2 (obsWFlip 1) 1) ∧
    stabLoop (fun _ => 7) 4 0 7 4 = 7 :=
  ⟨(confirmation_read_restarts_or_returns obsWFlip 3 0 7 4 (by decide)
      (by decide)).1 (by decide),
   (confirmation_read_restarts_or_returns (fun _ => 7) 3 0 7 4 rfl
      (by decide)).2 rfl⟩

/-- C5 witness: against an always-raising broadcast, the retry loop
performs exactly 5 attempts and fails with the 5th attempt's error. -/
theorem retry_exhaustion_terminal_failure_witness :
    sendTokensRetry attWFail =
      (.failure ("Transaction failed after multiple retries: " ++
        attWFailMsg 4), 5) :=
  (retry_exhaustion_terminal_failure attWFail attWFailMsg
    (fun _ => rfl)).1

/-- C7 witness: a successful broadcast is reported as success although
the confirmation stream stays at 2 and never reaches 3, and the
dispatcher loop reports success after one attempt. -/
theorem broadcast_success_survives_confirmation_timeout_witness :
    attemptRun attEnvW = .ok resW ∧
      sendTokensRetry (fun _ => attemptRun attEnvW) = (.success resW, 1) :=
  have h := broadcast_success_survives_confirmation_timeout attEnvW resW
    (by decide) rfl (fun _ => (by decide : (2 : Nat) < 2 + 1))
  ⟨h.1, h.2.2 (fun _ => attemptRun attEnvW) rfl⟩

end Faucet

